import Mathlib

/-!
Verification of the product CRUD REST API (Express + Sequelize, TypeScript).

The request-handling pipeline (router.ts validation chains, the six handlers in
handlers/product.ts, and the persistence calls they make) is embedded shallowly:
the database table is a `List Product`, each route is a function from the store
and the request data to a `Response` and the new store.  JavaScript values that
can appear in a JSON request body are modelled by `JsonValue`; numbers are
rationals (float corner cases such as NaN and 1e300 are outside the model).
-/

namespace ProductApi

/-- A JSON value as it appears in a parsed request body field. -/
inductive JsonValue where
  | null : JsonValue
  | bool (b : Bool) : JsonValue
  | num (q : Rat) : JsonValue
  | str (s : String) : JsonValue
deriving DecidableEq, Repr

/-- The request body fields the product routes read (express `req.body`):
each of the three columns' keys may be absent. -/
structure Body where
  name : Option JsonValue
  price : Option JsonValue
  availability : Option JsonValue
deriving DecidableEq, Repr

/-- A persisted product row.  Modelled from the spec: the Product model
(models/Product.model.ts is not in the sources) declares columns `id`
(integer surrogate primary key), `name` (text), `price` (numeric),
`availability` (boolean, default true), plus the audit timestamps
`createdAt`/`updatedAt` that Sequelize adds. -/
structure Product where
  id : Int
  name : String
  price : Rat
  availability : Bool
  createdAt : Nat
  updatedAt : Nat
deriving DecidableEq, Repr

/-- Digit characters read as a natural number, most significant first. -/
def digitsVal (cs : List Char) : Nat :=
  cs.foldl (fun a c => a * 10 + (c.toNat - 48)) 0

def isDigits (cs : List Char) : Bool :=
  !cs.isEmpty && cs.all (·.isDigit)

/-- Body of validator.js `isNumeric` after the optional sign:
`([0-9]*[.])?[0-9]+`. -/
def numericBody (cs : List Char) : Bool :=
  match cs.span (·.isDigit) with
  | (_, []) => !cs.isEmpty
  | (_, '.' :: fp) => isDigits fp
  | _ => false

/-- The validator.js `isNumeric` pattern (default options):
`^[+-]?([0-9]*[.])?[0-9]+$`. -/
def isNumericStr (s : String) : Bool :=
  match s.toList with
  | '+' :: cs => numericBody cs
  | '-' :: cs => numericBody cs
  | cs => numericBody cs

/-- The validator.js `isInt` pattern (default options): `^[+-]?[0-9]+$`. -/
def isIntStr (s : String) : Bool :=
  match s.toList with
  | '+' :: cs => isDigits cs
  | '-' :: cs => isDigits cs
  | cs => isDigits cs

/-- Unsigned decimal digits, with an optional fractional part, as a rational. -/
def parseDecimal (cs : List Char) : Rat :=
  match cs.span (·.isDigit) with
  | (ip, '.' :: fp) => mkRat (digitsVal ip * 10 ^ fp.length + digitsVal fp) (10 ^ fp.length)
  | (ip, _) => (digitsVal ip : Rat)

/-- The numeric value of a numeric string (JavaScript `Number(s)` on strings
accepted by `isNumericStr`). -/
def parseNumStr (s : String) : Rat :=
  match s.toList with
  | '+' :: cs => parseDecimal cs
  | '-' :: cs => - parseDecimal cs
  | cs => parseDecimal cs

/-- The integer value of a validated integer id string (the database cast of
`req.params.id` applied by `findByPk`). -/
def parseIntStr (s : String) : Int :=
  match s.toList with
  | '+' :: cs => (digitsVal cs : Int)
  | '-' :: cs => - (digitsVal cs : Int)
  | cs => (digitsVal cs : Int)

end ProductApi

namespace ProductApi

/-- express-validator coerces an absent or null field to the empty string and
any other value via `String(value)`; `notEmpty` fails exactly on the empty
string.  A number or boolean always stringifies to a non-empty string. -/
def isEmptyField : Option JsonValue → Bool
  | none => true
  | some .null => true
  | some (.str s) => s.isEmpty
  | some (.num _) => false
  | some (.bool _) => false

/-- express-validator `isNumeric`: the field value stringified and matched
against the numeric pattern.  `String(number)` always matches; `"true"`,
`"false"` and the empty string do not. -/
def isNumericField : Option JsonValue → Bool
  | some (.num _) => true
  | some (.str s) => isNumericStr s
  | _ => false

/-- express-validator `isBoolean` (loose): the stringified value must be one of
`"true"`, `"false"`, `"1"`, `"0"`. -/
def isBooleanField : Option JsonValue → Bool
  | some (.bool _) => true
  | some (.str s) => s = "true" || s = "false" || s = "1" || s = "0"
  | some (.num q) => q = 0 || q = 1
  | none => false
  | some .null => false

/-- The JavaScript comparison `value > 0` performed by the custom price rule:
numbers compare directly, numeric strings are coerced, non-numeric strings
give NaN (comparison false), `true` is 1, `false`/`null`/`undefined` are not
greater than 0. -/
def jsGtZero : Option JsonValue → Bool
  | some (.num q) => decide (0 < q)
  | some (.str s) => isNumericStr s && decide (0 < parseNumStr s)
  | some (.bool b) => b
  | some .null => false
  | none => false

/-- A validation error as produced by express-validator: the spec only fixes
that each error carries at least a `msg`; we also record the field path. -/
structure FieldError where
  path : String
  msg : String
deriving DecidableEq, Repr

/-- The `body("name")` chain of router.ts: `.not().notEmpty()` — in
express-validator `notEmpty()` is itself `not().isEmpty()` and the negation
flag is a boolean, so the double `not` still means "not empty" (the repo's
tests confirm: an empty body yields this error). -/
def nameRuleErrors (v : Option JsonValue) : List FieldError :=
  if isEmptyField v then [⟨"name", "Name is required"⟩] else []

/-- The `body("price")` chain of router.ts: `isNumeric`, `notEmpty`, and the
custom `value > 0` rule, each contributing its own error when it fails, in
declaration order. -/
def priceRuleErrors (v : Option JsonValue) : List FieldError :=
  (if isNumericField v then [] else [⟨"price", "Price must be a number"⟩]) ++
  (if isEmptyField v then [⟨"price", "Price is required"⟩] else []) ++
  (if jsGtZero v then [] else [⟨"price", "Price must be greater than 0"⟩])

/-- The `body("availability").isBoolean()` rule of the PUT route. -/
def availabilityRuleErrors (v : Option JsonValue) : List FieldError :=
  if isBooleanField v then [] else [⟨"availability", "Availability must be a boolean"⟩]

/-- The `param("id").isInt()` rule; the message differs between routes. -/
def idRuleErrors (msg idStr : String) : List FieldError :=
  if isIntStr idStr then [] else [⟨"id", msg⟩]

/-- POST `/` validation: name chain then price chain (router.ts). -/
def validatePost (b : Body) : List FieldError :=
  nameRuleErrors b.name ++ priceRuleErrors b.price

/-- PUT `/:id` validation: id, name, price, availability chains (router.ts). -/
def validatePut (idStr : String) (b : Body) : List FieldError :=
  idRuleErrors "not a valid id" idStr ++ nameRuleErrors b.name ++
    priceRuleErrors b.price ++ availabilityRuleErrors b.availability

/-- GET `/:id` validation (router.ts). -/
def validateGetById (idStr : String) : List FieldError :=
  idRuleErrors "Id must be an integer" idStr

/-- PATCH `/:id` validation (router.ts). -/
def validatePatch (idStr : String) : List FieldError :=
  idRuleErrors "not a valid id" idStr

/-- DELETE `/:id` validation (router.ts). -/
def validateDelete (idStr : String) : List FieldError :=
  idRuleErrors "not a valid id" idStr

/-- Cast of a body value into the text `name` column (database/JS string
coercion; under the passed validation the value is an arbitrary non-empty
value, typically a string). -/
def coerceStr : JsonValue → String
  | .str s => s
  | .num q => toString q
  | .bool b => if b then "true" else "false"
  | .null => ""

/-- Cast of a body value into the numeric `price` column. -/
def coerceNum : JsonValue → Rat
  | .num q => q
  | .str s => if isNumericStr s then parseNumStr s else 0
  | .bool b => if b then 1 else 0
  | .null => 0

/-- Cast of a body value into the boolean `availability` column. -/
def coerceBool : JsonValue → Bool
  | .bool b => b
  | .str s => s = "true" || s = "1"
  | .num q => decide (q ≠ 0)
  | .null => false

/-- The `name` column value written for a create from the request body. -/
def strField : Option JsonValue → String
  | some v => coerceStr v
  | none => ""

/-- The `price` column value written for a create from the request body. -/
def numField : Option JsonValue → Rat
  | some v => coerceNum v
  | none => 0

/-- Modelled from the spec: the `availability` column of the Product model
(models/Product.model.ts is not in the sources) defaults to true at creation;
Sequelize `Model.create(values)` applies the default only when the key is
absent, and otherwise casts the supplied value to boolean. -/
def availCreateField : Option JsonValue → Bool
  | none => true
  | some v => coerceBool v

/-- JSON serialization of a full product row, as `res.json({ data: product })`
renders a model instance: every column, audit timestamps included. -/
def productJson (p : Product) : List (String × JsonValue) :=
  [("id", .num (p.id : Rat)), ("name", .str p.name), ("price", .num p.price),
   ("availability", .bool p.availability),
   ("createdAt", .num (p.createdAt : Rat)), ("updatedAt", .num (p.updatedAt : Rat))]

/-- A row as returned by the list query, which excludes the audit timestamp
attributes (`attributes: { exclude: ["createdAt", "updatedAt"] }`). -/
structure ProductOut where
  id : Int
  name : String
  price : Rat
  availability : Bool
deriving DecidableEq, Repr

/-- Drop the audit timestamp attributes from a row. -/
def stripTimestamps (p : Product) : ProductOut :=
  ⟨p.id, p.name, p.price, p.availability⟩

/-- JSON serialization of a timestamp-less row from the list query. -/
def productOutJson (o : ProductOut) : List (String × JsonValue) :=
  [("id", .num (o.id : Rat)), ("name", .str o.name), ("price", .num o.price),
   ("availability", .bool o.availability)]

/-- A response body: `{ data: [...] }` for the list, `{ data: {...} }` for a
single product, `{ data: "..." }` for delete, `{ error: "..." }` for 404s and
`{ errors: [...] }` from the validation middleware. -/
inductive RBody where
  | dataList (rows : List (List (String × JsonValue))) : RBody
  | dataObj (fields : List (String × JsonValue)) : RBody
  | dataStr (s : String) : RBody
  | errObj (msg : String) : RBody
  | errList (es : List FieldError) : RBody
deriving DecidableEq, Repr

/-- An HTTP response: status code and JSON body. -/
structure Response where
  status : Nat
  body : RBody
deriving DecidableEq, Repr

/-- The lookup `Product.findByPk id`: the row whose primary key equals the
given id. -/
def findByPk (state : List Product) (i : Int) : Option Product :=
  state.find? (fun p => p.id = i)

/-- Persisting `product.save()` after mutating a fetched instance: the row
with the instance's primary key is overwritten. -/
def replaceById (state : List Product) (i : Int) (p : Product) : List Product :=
  state.map (fun q => if q.id = i then p else q)

/-- The order `[["id", "DESC"]]` of the list query: descending by id. -/
def idDescOrder (a b : Product) : Prop := b.id ≤ a.id

instance : DecidableRel idDescOrder := fun a b => Int.decLe b.id a.id

instance : IsTotal Product idDescOrder := ⟨fun a b => le_total b.id a.id⟩

instance : IsTrans Product idDescOrder := ⟨fun _ _ _ h1 h2 => le_trans h2 h1⟩

/-- The rows of `Product.findAll({ order: [["id", "DESC"]] })`. -/
def sortByIdDesc (state : List Product) : List Product :=
  List.insertionSort idDescOrder state

/-- Handler `getProducts` (handlers/product.ts): findAll ordered by id
descending with the audit timestamps excluded; respond `{ data: products }`
(status 200 by default). -/
def getProducts (state : List Product) : Response × List Product :=
  (⟨200, .dataList ((sortByIdDesc state).map (fun p => productOutJson (stripTimestamps p)))⟩,
   state)

/-- Handler `getProductById` (handlers/product.ts). -/
def getProductById (state : List Product) (idStr : String) : Response × List Product :=
  match findByPk state (parseIntStr idStr) with
  | none => (⟨404, .errObj "Product not found"⟩, state)
  | some p => (⟨200, .dataObj (productJson p)⟩, state)

/-- Handler `createProduct` (handlers/product.ts): `Product.create(req.body)`
builds the row from the body's model attributes (the database assigns the next
primary key and the audit timestamps, passed here as `nextId` and `now`);
respond 201 `{ data: product }`. -/
def createProduct (state : List Product) (nextId : Int) (now : Nat) (b : Body) :
    Response × List Product :=
  let p : Product :=
    ⟨nextId, strField b.name, numField b.price, availCreateField b.availability, now, now⟩
  (⟨201, .dataObj (productJson p)⟩, state ++ [p])

/-- Handler `updateProduct` (handlers/product.ts): fetch by pk, 404 when
absent, else `product.update(req.body)` overwrites the model attributes
present in the body and `save()` persists the row. -/
def updateProduct (state : List Product) (idStr : String) (b : Body) :
    Response × List Product :=
  match findByPk state (parseIntStr idStr) with
  | none => (⟨404, .errObj "Product not found"⟩, state)
  | some p =>
    let p' : Product :=
      { p with
        name := match b.name with | some v => coerceStr v | none => p.name,
        price := match b.price with | some v => coerceNum v | none => p.price,
        availability := match b.availability with | some v => coerceBool v | none => p.availability }
    (⟨200, .dataObj (productJson p')⟩, replaceById state p.id p')

/-- Handler `updateAvailability` (handlers/product.ts): fetch by pk, 404 when
absent, else `product.availability = !product.dataValues.availability` and
`save()`. -/
def updateAvailability (state : List Product) (idStr : String) :
    Response × List Product :=
  match findByPk state (parseIntStr idStr) with
  | none => (⟨404, .errObj "Product not found"⟩, state)
  | some p =>
    let p' : Product := { p with availability := !p.availability }
    (⟨200, .dataObj (productJson p')⟩, replaceById state p.id p')

/-- Handler `deleteProduct` (handlers/product.ts): fetch by pk, 404 when
absent, else `product.destroy()` and respond `{ data: "Product deleted" }`. -/
def deleteProduct (state : List Product) (idStr : String) :
    Response × List Product :=
  match findByPk state (parseIntStr idStr) with
  | none => (⟨404, .errObj "Product not found"⟩, state)
  | some p => (⟨200, .dataStr "Product deleted"⟩, state.filter (fun q => q.id ≠ p.id))

/-- Modelled from the spec: `handleInputErrors` (middleware/index.ts is not in
the sources) responds 400 with `{ errors: [...] }` when any declared rule
failed and halts, else continues to the handler. -/
def runValidated (errs : List FieldError) (handler : Response × List Product)
    (state : List Product) : Response × List Product :=
  if errs.isEmpty then handler else (⟨400, .errList errs⟩, state)

/-- Route GET `/api/products` (router.ts): no validation. -/
def listRoute (state : List Product) : Response × List Product :=
  getProducts state

/-- Route GET `/api/products/:id` (router.ts). -/
def getByIdRoute (state : List Product) (idStr : String) : Response × List Product :=
  runValidated (validateGetById idStr) (getProductById state idStr) state

/-- Route POST `/api/products` (router.ts). -/
def postRoute (state : List Product) (nextId : Int) (now : Nat) (b : Body) :
    Response × List Product :=
  runValidated (validatePost b) (createProduct state nextId now b) state

/-- Route PUT `/api/products/:id` (router.ts). -/
def putRoute (state : List Product) (idStr : String) (b : Body) :
    Response × List Product :=
  runValidated (validatePut idStr b) (updateProduct state idStr b) state

/-- Route PATCH `/api/products/:id` (router.ts). -/
def patchRoute (state : List Product) (idStr : String) : Response × List Product :=
  runValidated (validatePatch idStr) (updateAvailability state idStr) state

/-- Route DELETE `/api/products/:id` (router.ts). -/
def deleteRoute (state : List Product) (idStr : String) : Response × List Product :=
  runValidated (validateDelete idStr) (deleteProduct state idStr) state

/-- Every error produced by the price chain is on the `price` path. -/
theorem priceRuleErrors_path {v : Option JsonValue} {e : FieldError}
    (he : e ∈ priceRuleErrors v) : e.path = "price" := by
  simp only [priceRuleErrors] at he
  split_ifs at he <;> simp_all <;> aesop

/-- C1: a create request with a missing or empty `name` fails validation (400)
with the error "Name is required", and a create request with a non-empty
`name` produces no error on the `name` field. -/
theorem create_name_validation (st : List Product) (nextId : Int) (now : Nat)
    (b : Body) :
    (isEmptyField b.name = true →
      (postRoute st nextId now b).1.status = 400 ∧
      FieldError.mk "name" "Name is required" ∈ validatePost b) ∧
    (isEmptyField b.name = false →
      ∀ e ∈ validatePost b, e.path ≠ "name") := by
  constructor
  · intro h
    constructor
    · simp [postRoute, runValidated, validatePost, nameRuleErrors, h]
    · simp [validatePost, nameRuleErrors, h]
  · intro h e he hpath
    have hp : e.path = "price" := by
      apply @priceRuleErrors_path b.price e
      simpa [validatePost, nameRuleErrors, h] using he
    rw [hpath] at hp
    exact absurd hp (by decide)

/-- Witness for C1: the empty name (absent field) is rejected with
"Name is required" and status 400, and the name "Mouse-Testing" passes the
name rule. -/
theorem create_name_validation_witness :
    (postRoute [] 1 0 ⟨none, some (.num 100), none⟩).1.status = 400 ∧
    FieldError.mk "name" "Name is required" ∈ validatePost ⟨none, some (.num 100), none⟩ ∧
    (∀ e ∈ validatePost ⟨some (.str "Mouse-Testing"), some (.num 100), none⟩,
      e.path ≠ "name") := by
  refine ⟨?_, ?_, ?_⟩
  · exact ((create_name_validation [] 1 0 ⟨none, some (.num 100), none⟩).1 (by decide)).1
  · exact ((create_name_validation [] 1 0 ⟨none, some (.num 100), none⟩).1 (by decide)).2
  · exact (create_name_validation [] 1 0
      ⟨some (.str "Mouse-Testing"), some (.num 100), none⟩).2 (by decide)

/-- C6: a create request with a non-empty name and a numeric price `q ≤ 0`
fails with exactly one validation error, "Price must be greater than 0" (the
numeric and non-empty price rules pass), and the route responds 400 leaving
the store unchanged. -/
theorem create_nonpositive_price_single_error (st : List Product) (nextId : Int)
    (now : Nat) (b : Body) (q : Rat)
    (hprice : b.price = some (.num q)) (hq : q ≤ 0)
    (hname : isEmptyField b.name = false) :
    validatePost b = [⟨"price", "Price must be greater than 0"⟩] ∧
    postRoute st nextId now b =
      (⟨400, .errList [⟨"price", "Price must be greater than 0"⟩]⟩, st) := by
  have hlt : decide ((0 : Rat) < q) = false := decide_eq_false (not_lt.mpr hq)
  have h1 : nameRuleErrors b.name = [] := by simp [nameRuleErrors, hname]
  have h2 : priceRuleErrors b.price = [⟨"price", "Price must be greater than 0"⟩] := by
    simp [priceRuleErrors, hprice, isNumericField, isEmptyField, jsGtZero, hlt]
  have hv : validatePost b = [⟨"price", "Price must be greater than 0"⟩] := by
    simp [validatePost, h1, h2]
  exact ⟨hv, by simp [postRoute, runValidated, hv]⟩

/-- Witness for C6: name "Monitor-Testing" and price 0 give exactly the error
"Price must be greater than 0" on an empty store. -/
theorem create_nonpositive_price_single_error_witness :
    validatePost ⟨some (.str "Monitor-Testing"), some (.num 0), none⟩ =
      [⟨"price", "Price must be greater than 0"⟩] ∧
    postRoute [] 1 0 ⟨some (.str "Monitor-Testing"), some (.num 0), none⟩ =
      (⟨400, .errList [⟨"price", "Price must be greater than 0"⟩]⟩, []) :=
  create_nonpositive_price_single_error [] 1 0
    ⟨some (.str "Monitor-Testing"), some (.num 0), none⟩ 0 rfl le_rfl (by decide)

/-- C7 as stated is false: a PUT whose path id is not an integer and whose
body is empty is answered 400 with six validation errors, not a single
error. -/
theorem invalid_id_single_error_counterexample :
    isIntStr "not-valid-url" = false ∧
    (putRoute [] "not-valid-url" ⟨none, none, none⟩).1.status = 400 ∧
    (putRoute [] "not-valid-url" ⟨none, none, none⟩).1.body =
      .errList (validatePut "not-valid-url" ⟨none, none, none⟩) ∧
    (validatePut "not-valid-url" ⟨none, none, none⟩).length = 6 ∧
    ¬ (validatePut "not-valid-url" ⟨none, none, none⟩).length = 1 := by decide

/-- C7 amended: a non-integer path id always yields 400 and an id error that
is first in the list — "Id must be an integer" on get, "not a valid id" on
update, patch and delete; on get, patch and delete it is the single error,
while on update body-validation errors are reported alongside it (it is the
single error exactly when the body passes its rules).  The store is never
changed. -/
theorem invalid_id_validation (st : List Product) (idStr : String) (b : Body)
    (h : isIntStr idStr = false) :
    getByIdRoute st idStr = (⟨400, .errList [⟨"id", "Id must be an integer"⟩]⟩, st) ∧
    patchRoute st idStr = (⟨400, .errList [⟨"id", "not a valid id"⟩]⟩, st) ∧
    deleteRoute st idStr = (⟨400, .errList [⟨"id", "not a valid id"⟩]⟩, st) ∧
    (putRoute st idStr b).1.status = 400 ∧
    (putRoute st idStr b).2 = st ∧
    (validatePut idStr b).head? = some ⟨"id", "not a valid id"⟩ ∧
    (nameRuleErrors b.name = [] → priceRuleErrors b.price = [] →
      availabilityRuleErrors b.availability = [] →
      putRoute st idStr b = (⟨400, .errList [⟨"id", "not a valid id"⟩]⟩, st)) := by
  refine ⟨?_, ?_, ?_, ?_, ?_, ?_, fun h1 h2 h3 => ?_⟩
  · simp [getByIdRoute, runValidated, validateGetById, idRuleErrors, h]
  · simp [patchRoute, runValidated, validatePatch, idRuleErrors, h]
  · simp [deleteRoute, runValidated, validateDelete, idRuleErrors, h]
  · simp [putRoute, runValidated, validatePut, idRuleErrors, h]
  · simp [putRoute, runValidated, validatePut, idRuleErrors, h]
  · simp [validatePut, idRuleErrors, h]
  · simp [putRoute, runValidated, validatePut, idRuleErrors, h, h1, h2, h3]

/-- Witness for C7 amended: the id "not-valid-url" with the valid update body
used by the repo's tests gives exactly the single "not a valid id" error on
every id route. -/
theorem invalid_id_validation_witness :
    getByIdRoute [] "not-valid-url" =
      (⟨400, .errList [⟨"id", "Id must be an integer"⟩]⟩, []) ∧
    patchRoute [] "not-valid-url" =
      (⟨400, .errList [⟨"id", "not a valid id"⟩]⟩, []) ∧
    putRoute [] "not-valid-url"
        ⟨some (.str "Monitor-Testing"), some (.num 100), some (.bool true)⟩ =
      (⟨400, .errList [⟨"id", "not a valid id"⟩]⟩, []) := by
  have h := invalid_id_validation [] "not-valid-url"
    ⟨some (.str "Monitor-Testing"), some (.num 100), some (.bool true)⟩ (by decide)
  exact ⟨h.1, h.2.1, h.2.2.2.2.2.2 (by decide) (by decide) (by decide)⟩

/-- A successful primary-key lookup returns a row with the requested id. -/
theorem findByPk_id {st : List Product} {i : Int} {p : Product}
    (h : findByPk st i = some p) : p.id = i := by
  have := List.find?_some h
  simpa using this

/-- A successful primary-key lookup returns a row of the store. -/
theorem findByPk_mem {st : List Product} {i : Int} {p : Product}
    (h : findByPk st i = some p) : p ∈ st :=
  List.mem_of_find?_eq_some h

/-- C4: deleting an existing product responds 200 with data "Product deleted"
and removes every row with that id permanently (the remaining rows are a
subset of the store), and a second delete of the same id responds 404 with
error "Product not found" and leaves the store as the first delete left
it. -/
theorem delete_twice (st : List Product) (idStr : String) (p : Product)
    (hid : isIntStr idStr = true)
    (hfind : findByPk st (parseIntStr idStr) = some p) :
    (deleteRoute st idStr).1 = ⟨200, .dataStr "Product deleted"⟩ ∧
    (∀ q ∈ (deleteRoute st idStr).2, q.id ≠ parseIntStr idStr) ∧
    (∀ q ∈ (deleteRoute st idStr).2, q ∈ st) ∧
    deleteRoute (deleteRoute st idStr).2 idStr =
      (⟨404, .errObj "Product not found"⟩, (deleteRoute st idStr).2) := by
  have hroute : deleteRoute st idStr =
      (⟨200, .dataStr "Product deleted"⟩, st.filter (fun q => q.id ≠ p.id)) := by
    simp [deleteRoute, runValidated, validateDelete, idRuleErrors, hid,
      deleteProduct, hfind]
  have hgone : ∀ q ∈ st.filter (fun q => q.id ≠ p.id), q.id ≠ parseIntStr idStr := by
    intro q hq
    have h2 := (List.mem_filter.1 hq).2
    rw [← findByPk_id hfind]
    simpa using h2
  have hnone : findByPk (st.filter (fun q => q.id ≠ p.id)) (parseIntStr idStr) = none := by
    rw [findByPk, List.find?_eq_none]
    intro q hq
    simpa using hgone q hq
  refine ⟨by rw [hroute], ?_, ?_, ?_⟩
  · rw [hroute]
    exact hgone
  · rw [hroute]
    intro q hq
    exact (List.mem_filter.1 hq).1
  · rw [hroute]
    have hnone' : findByPk (List.filter (fun q => !decide (q.id = p.id)) st)
        (parseIntStr idStr) = none := by simpa using hnone
    simp [deleteRoute, runValidated, validateDelete, idRuleErrors, hid,
      deleteProduct, hnone']

/-- Witness for C4: deleting id 1 from a one-product store returns 200 and
"Product deleted", empties the store, and a second delete returns 404. -/
theorem delete_twice_witness :
    (deleteRoute [⟨1, "a", 5, true, 0, 0⟩] "1").1 = ⟨200, .dataStr "Product deleted"⟩ ∧
    (∀ q ∈ (deleteRoute [⟨1, "a", 5, true, 0, 0⟩] "1").2, q.id ≠ parseIntStr "1") ∧
    (∀ q ∈ (deleteRoute [⟨1, "a", 5, true, 0, 0⟩] "1").2, q ∈ [⟨1, "a", 5, true, 0, 0⟩]) ∧
    deleteRoute (deleteRoute [⟨1, "a", 5, true, 0, 0⟩] "1").2 "1" =
      (⟨404, .errObj "Product not found"⟩, (deleteRoute [⟨1, "a", 5, true, 0, 0⟩] "1").2) :=
  delete_twice [⟨1, "a", 5, true, 0, 0⟩] "1" ⟨1, "a", 5, true, 0, 0⟩ (by decide) (by decide)

/-- C5: on an integer id that is not in the store, get-by-id, update with a
body that passes its validation rules, patch and delete all respond 404 with
error "Product not found" and leave the store unchanged. -/
theorem not_found_routes (st : List Product) (idStr : String) (b : Body)
    (hid : isIntStr idStr = true)
    (habs : findByPk st (parseIntStr idStr) = none)
    (hb1 : nameRuleErrors b.name = [])
    (hb2 : priceRuleErrors b.price = [])
    (hb3 : availabilityRuleErrors b.availability = []) :
    getByIdRoute st idStr = (⟨404, .errObj "Product not found"⟩, st) ∧
    putRoute st idStr b = (⟨404, .errObj "Product not found"⟩, st) ∧
    patchRoute st idStr = (⟨404, .errObj "Product not found"⟩, st) ∧
    deleteRoute st idStr = (⟨404, .errObj "Product not found"⟩, st) := by
  refine ⟨?_, ?_, ?_, ?_⟩
  · simp [getByIdRoute, runValidated, validateGetById, idRuleErrors, hid,
      getProductById, habs]
  · simp [putRoute, runValidated, validatePut, idRuleErrors, hid, hb1, hb2, hb3,
      updateProduct, habs]
  · simp [patchRoute, runValidated, validatePatch, idRuleErrors, hid,
      updateAvailability, habs]
  · simp [deleteRoute, runValidated, validateDelete, idRuleErrors, hid,
      deleteProduct, habs]

/-- Witness for C5: id 9999 on a store holding only id 1, with the valid
update body of the repo's tests, is answered 404 by all four routes. -/
theorem not_found_routes_witness :
    getByIdRoute [⟨1, "a", 5, true, 0, 0⟩] "9999" =
      (⟨404, .errObj "Product not found"⟩, [⟨1, "a", 5, true, 0, 0⟩]) ∧
    putRoute [⟨1, "a", 5, true, 0, 0⟩] "9999"
        ⟨some (.str "Monitor-Testing"), some (.num 100), some (.bool true)⟩ =
      (⟨404, .errObj "Product not found"⟩, [⟨1, "a", 5, true, 0, 0⟩]) ∧
    patchRoute [⟨1, "a", 5, true, 0, 0⟩] "9999" =
      (⟨404, .errObj "Product not found"⟩, [⟨1, "a", 5, true, 0, 0⟩]) ∧
    deleteRoute [⟨1, "a", 5, true, 0, 0⟩] "9999" =
      (⟨404, .errObj "Product not found"⟩, [⟨1, "a", 5, true, 0, 0⟩]) :=
  not_found_routes [⟨1, "a", 5, true, 0, 0⟩] "9999"
    ⟨some (.str "Monitor-Testing"), some (.num 100), some (.bool true)⟩
    (by decide) (by decide) (by decide) (by decide) (by decide)

/-- C10: get-by-id serializes the stored row with the audit timestamps
included — its response is the full row, whose JSON carries the `createdAt`
and `updatedAt` keys — while every row in the list response carries only the
`id`, `name`, `price` and `availability` keys. -/
theorem get_by_id_includes_timestamps (st : List Product) (idStr : String)
    (p : Product) (hid : isIntStr idStr = true)
    (hfind : findByPk st (parseIntStr idStr) = some p) :
    getByIdRoute st idStr = (⟨200, .dataObj (productJson p)⟩, st) ∧
    "createdAt" ∈ (productJson p).map Prod.fst ∧
    "updatedAt" ∈ (productJson p).map Prod.fst ∧
    (listRoute st).1.body =
      .dataList ((sortByIdDesc st).map (fun q => productOutJson (stripTimestamps q))) ∧
    (∀ r ∈ (sortByIdDesc st).map (fun q => productOutJson (stripTimestamps q)),
      "createdAt" ∉ r.map Prod.fst ∧ "updatedAt" ∉ r.map Prod.fst) := by
  refine ⟨?_, ?_, ?_, rfl, ?_⟩
  · simp [getByIdRoute, runValidated, validateGetById, idRuleErrors, hid,
      getProductById, hfind]
  · simp [productJson]
  · simp [productJson]
  · intro r hr
    rcases List.mem_map.1 hr with ⟨q, _, rfl⟩
    simp [productOutJson, stripTimestamps]

/-- Witness for C10: on a one-product store, get-by-id returns the row with
its timestamps and the list rows carry no timestamp keys. -/
theorem get_by_id_includes_timestamps_witness :
    getByIdRoute [⟨1, "a", 5, true, 3, 4⟩] "1" =
      (⟨200, .dataObj (productJson ⟨1, "a", 5, true, 3, 4⟩)⟩, [⟨1, "a", 5, true, 3, 4⟩]) ∧
    "createdAt" ∈ (productJson ⟨1, "a", 5, true, 3, 4⟩).map Prod.fst ∧
    "updatedAt" ∈ (productJson ⟨1, "a", 5, true, 3, 4⟩).map Prod.fst ∧
    (listRoute [⟨1, "a", 5, true, 3, 4⟩]).1.body =
      .dataList ((sortByIdDesc [⟨1, "a", 5, true, 3, 4⟩]).map
        (fun q => productOutJson (stripTimestamps q))) ∧
    (∀ r ∈ (sortByIdDesc [⟨1, "a", 5, true, 3, 4⟩]).map
        (fun q => productOutJson (stripTimestamps q)),
      "createdAt" ∉ r.map Prod.fst ∧ "updatedAt" ∉ r.map Prod.fst) :=
  get_by_id_includes_timestamps [⟨1, "a", 5, true, 3, 4⟩] "1" ⟨1, "a", 5, true, 3, 4⟩
    (by decide) (by decide)

/-- C9: patching an existing product responds 200 with the row whose
availability is inverted, keeps the store's length, leaves every product with
a different id untouched (in both directions), and every stored row with the
patched id keeps its name, price and id and has exactly the inverted
availability. -/
theorem patch_changes_only_availability (st : List Product) (idStr : String)
    (p : Product) (hid : isIntStr idStr = true)
    (hfind : findByPk st (parseIntStr idStr) = some p) :
    (patchRoute st idStr).1 =
      ⟨200, .dataObj (productJson { p with availability := !p.availability })⟩ ∧
    (patchRoute st idStr).2.length = st.length ∧
    (∀ q ∈ st, q.id ≠ p.id → q ∈ (patchRoute st idStr).2) ∧
    (∀ q ∈ (patchRoute st idStr).2, q.id ≠ p.id → q ∈ st) ∧
    (∀ q ∈ (patchRoute st idStr).2, q.id = p.id →
      q.name = p.name ∧ q.price = p.price ∧ q.availability = !p.availability) := by
  have hroute : patchRoute st idStr =
      (⟨200, .dataObj (productJson { p with availability := !p.availability })⟩,
       replaceById st p.id { p with availability := !p.availability }) := by
    simp [patchRoute, runValidated, validatePatch, idRuleErrors, hid,
      updateAvailability, hfind]
  rw [hroute]
  refine ⟨rfl, ?_, ?_, ?_, ?_⟩
  · simp [replaceById]
  · intro q hq hne
    refine List.mem_map.2 ⟨q, hq, ?_⟩
    simp [hne]
  · intro q hq hne
    rcases List.mem_map.1 hq with ⟨r, hr, rfl⟩
    by_cases h : r.id = p.id
    · simp [h] at hne
    · simpa [h] using hr
  · intro q hq heq
    rcases List.mem_map.1 hq with ⟨r, hr, rfl⟩
    by_cases h : r.id = p.id
    · simp [h]
    · rw [if_neg h] at heq
      exact absurd heq h

/-- Witness for C9: patching id 1 in a two-product store flips only the first
product's availability and leaves the product with id 2 in place. -/
theorem patch_changes_only_availability_witness :
    (patchRoute [⟨1, "a", 5, true, 0, 0⟩, ⟨2, "b", 7, false, 0, 0⟩] "1").1 =
      ⟨200, .dataObj (productJson { (⟨1, "a", 5, true, 0, 0⟩ : Product) with
        availability := !(⟨1, "a", 5, true, 0, 0⟩ : Product).availability })⟩ ∧
    (patchRoute [⟨1, "a", 5, true, 0, 0⟩, ⟨2, "b", 7, false, 0, 0⟩] "1").2.length =
      ([⟨1, "a", 5, true, 0, 0⟩, ⟨2, "b", 7, false, 0, 0⟩] : List Product).length ∧
    (∀ q ∈ ([⟨1, "a", 5, true, 0, 0⟩, ⟨2, "b", 7, false, 0, 0⟩] : List Product),
      q.id ≠ (⟨1, "a", 5, true, 0, 0⟩ : Product).id →
      q ∈ (patchRoute [⟨1, "a", 5, true, 0, 0⟩, ⟨2, "b", 7, false, 0, 0⟩] "1").2) ∧
    (∀ q ∈ (patchRoute [⟨1, "a", 5, true, 0, 0⟩, ⟨2, "b", 7, false, 0, 0⟩] "1").2,
      q.id ≠ (⟨1, "a", 5, true, 0, 0⟩ : Product).id →
      q ∈ ([⟨1, "a", 5, true, 0, 0⟩, ⟨2, "b", 7, false, 0, 0⟩] : List Product)) ∧
    (∀ q ∈ (patchRoute [⟨1, "a", 5, true, 0, 0⟩, ⟨2, "b", 7, false, 0, 0⟩] "1").2,
      q.id = (⟨1, "a", 5, true, 0, 0⟩ : Product).id →
      q.name = "a" ∧ q.price = 5 ∧ q.availability = !true) :=
  patch_changes_only_availability [⟨1, "a", 5, true, 0, 0⟩, ⟨2, "b", 7, false, 0, 0⟩]
    "1" ⟨1, "a", 5, true, 0, 0⟩ (by decide) (by decide)

/-- Replacing the row found by a primary-key lookup makes the lookup return
the replacement. -/
theorem findByPk_replaceById {i : Int} {p' : Product} (hp' : p'.id = i) :
    ∀ {st : List Product} {p : Product}, findByPk st i = some p →
      findByPk (replaceById st i p') i = some p'
  | [], p, h => by simp [findByPk] at h
  | q :: qs, p, h => by
    by_cases hq : q.id = i
    · simp [replaceById, findByPk, hq, hp']
    · have h' : findByPk qs i = some p := by
        simpa [findByPk, hq] using h
      have ih := findByPk_replaceById hp' h'
      simpa [replaceById, findByPk, hq] using ih

/-- Overwriting the same primary key twice keeps only the second write. -/
theorem replaceById_replaceById (st : List Product) (i : Int) (p' p : Product)
    (hp' : p'.id = i) :
    replaceById (replaceById st i p') i p = replaceById st i p := by
  induction st with
  | nil => rfl
  | cons q qs ih =>
    by_cases hq : q.id = i
    · simp [replaceById, hq, hp'] at ih ⊢
      exact ih
    · simp [replaceById, hq] at ih ⊢
      exact ih

/-- Overwriting a primary key with the only row that carries it is a no-op. -/
theorem replaceById_eq_self (st : List Product) (i : Int) (p : Product)
    (h : ∀ q ∈ st, q.id = i → q = p) :
    replaceById st i p = st := by
  induction st with
  | nil => rfl
  | cons q qs ih =>
    have ht : replaceById qs i p = qs :=
      ih (fun r hr => h r (List.mem_cons_of_mem q hr))
    by_cases hq : q.id = i
    · have := h q (List.mem_cons_self q qs) hq
      simp [replaceById, hq, this] at ht ⊢
      exact ht
    · simp [replaceById, hq] at ht ⊢
      exact ht

/-- Under unique ids, the row a primary-key lookup finds is the only row with
that id. -/
theorem findByPk_unique {st : List Product}
    (hnodup : (st.map (fun q => q.id)).Nodup) {i : Int} {p : Product}
    (hfind : findByPk st i = some p) :
    ∀ q ∈ st, q.id = i → q = p := by
  intro q hq hqi
  refine List.inj_on_of_nodup_map hnodup hq (findByPk_mem hfind) ?_
  rw [hqi, findByPk_id hfind]

/-- C3: with unique ids, patching an existing product stores it with its
availability inverted, and patching the same id a second time restores the
store exactly, so the toggle is an involution on the stored state. -/
theorem patch_twice_restores (st : List Product) (idStr : String) (p : Product)
    (hnodup : (st.map (fun q => q.id)).Nodup)
    (hid : isIntStr idStr = true)
    (hfind : findByPk st (parseIntStr idStr) = some p) :
    findByPk (patchRoute st idStr).2 (parseIntStr idStr) =
      some { p with availability := !p.availability } ∧
    (patchRoute (patchRoute st idStr).2 idStr).2 = st := by
  have hpi : p.id = parseIntStr idStr := findByPk_id hfind
  have hstate1 : (patchRoute st idStr).2 =
      replaceById st p.id { p with availability := !p.availability } := by
    simp [patchRoute, runValidated, validatePatch, idRuleErrors, hid,
      updateAvailability, hfind]
  have hfind1 : findByPk (replaceById st p.id { p with availability := !p.availability })
      (parseIntStr idStr) = some { p with availability := !p.availability } := by
    rw [← hpi] at hfind ⊢
    exact @findByPk_replaceById p.id { p with availability := !p.availability } rfl st p hfind
  have hflip : ({ { p with availability := !p.availability } with
      availability := !{ p with availability := !p.availability }.availability } : Product) = p := by
    cases p
    simp
  constructor
  · rw [hstate1]
    exact hfind1
  · rw [hstate1]
    have hstate2 : (patchRoute (replaceById st p.id { p with availability := !p.availability }) idStr).2 =
        replaceById (replaceById st p.id { p with availability := !p.availability }) p.id p := by
      simp [patchRoute, runValidated, validatePatch, idRuleErrors, hid,
        updateAvailability, hfind1, hflip]
    rw [hstate2, replaceById_replaceById st p.id
      { p with availability := !p.availability } p rfl]
    exact replaceById_eq_self st p.id p
      (fun q hq hqi => findByPk_unique hnodup hfind q hq (hqi.trans hpi))

/-- Witness for C3: patching id 1 twice on a two-product store first stores
availability false and then restores the original store. -/
theorem patch_twice_restores_witness :
    findByPk (patchRoute [⟨1, "a", 5, true, 0, 0⟩, ⟨2, "b", 7, false, 0, 0⟩] "1").2
      (parseIntStr "1") =
      some { (⟨1, "a", 5, true, 0, 0⟩ : Product) with
        availability := !(⟨1, "a", 5, true, 0, 0⟩ : Product).availability } ∧
    (patchRoute (patchRoute [⟨1, "a", 5, true, 0, 0⟩, ⟨2, "b", 7, false, 0, 0⟩] "1").2 "1").2 =
      [⟨1, "a", 5, true, 0, 0⟩, ⟨2, "b", 7, false, 0, 0⟩] :=
  patch_twice_restores [⟨1, "a", 5, true, 0, 0⟩, ⟨2, "b", 7, false, 0, 0⟩] "1"
    ⟨1, "a", 5, true, 0, 0⟩ (by decide) (by decide) (by decide)

/-- C2 fails as stated: `createProduct` passes the whole request body to
`Product.create`, so a valid create request that also carries
`availability: false` is persisted with availability false — the default true
is not applied "regardless of what the request body contains". -/
theorem create_defaults_counterexample :
    validatePost ⟨some (.str "Mouse-Testing"), some (.num 100), some (.bool false)⟩ = [] ∧
    (postRoute [] 1 0
      ⟨some (.str "Mouse-Testing"), some (.num 100), some (.bool false)⟩).1.status = 201 ∧
    (postRoute [] 1 0
        ⟨some (.str "Mouse-Testing"), some (.num 100), some (.bool false)⟩).2.map
      (fun p => p.availability) = [false] := by decide

/-- C2 amended: for every valid create request the persisted entity takes its
`name` and `price` from the body, its `availability` defaults to true when
the body does not carry the field, and otherwise stores the body's value
cast to boolean; the response is 201 with the entity as data and the entity
is appended to the store. -/
theorem create_persists_entity (st : List Product) (nextId : Int) (now : Nat)
    (b : Body) (h : validatePost b = []) :
    postRoute st nextId now b =
      (⟨201, .dataObj (productJson ⟨nextId, strField b.name, numField b.price,
          availCreateField b.availability, now, now⟩)⟩,
       st ++ [⟨nextId, strField b.name, numField b.price,
          availCreateField b.availability, now, now⟩]) ∧
    (b.availability = none → availCreateField b.availability = true) := by
  constructor
  · simp [postRoute, runValidated, h, createProduct]
  · intro ha
    simp [availCreateField, ha]

/-- Witness for C2 amended: the create body of the repo's tests (name
"Mouse-Testing", price 100, no availability) persists
⟨1, "Mouse-Testing", 100, true⟩ and is answered 201 with that entity. -/
theorem create_persists_entity_witness :
    postRoute [] 1 0 ⟨some (.str "Mouse-Testing"), some (.num 100), none⟩ =
      (⟨201, .dataObj (productJson ⟨1, "Mouse-Testing", 100, true, 0, 0⟩)⟩,
       [⟨1, "Mouse-Testing", 100, true, 0, 0⟩]) :=
  (create_persists_entity [] 1 0
    ⟨some (.str "Mouse-Testing"), some (.num 100), none⟩ (by decide)).1

/-- C8: the list route responds 200 with the serializations of a
rearrangement of the whole store that is sorted by id in descending order,
and every returned row carries exactly the `id`, `name`, `price` and
`availability` keys — the audit timestamps are excluded. -/
theorem list_sorted_desc (st : List Product) :
    ∃ l : List Product, l.Perm st ∧ List.Sorted idDescOrder l ∧
      listRoute st =
        (⟨200, .dataList (l.map (fun q => productOutJson (stripTimestamps q)))⟩, st) ∧
      ∀ r ∈ l.map (fun q => productOutJson (stripTimestamps q)),
        r.map Prod.fst = ["id", "name", "price", "availability"] := by
  refine ⟨sortByIdDesc st, List.perm_insertionSort idDescOrder st,
    List.sorted_insertionSort idDescOrder st, rfl, ?_⟩
  intro r hr
  rcases List.mem_map.1 hr with ⟨q, _, rfl⟩
  rfl

end ProductApi
